import Mathlib

/-!
Shallow embedding of the three serverless handlers of the
hold-that-thought backend:

* `backend/activity-aggregator/index.py` — the Activity Updater,
* `backend/notification-processor/index.py` — the Notification Dispatcher,
* `backend/lambdas/amplify-deployer/index.py` — the Deployment Poller.

Python dictionaries of DynamoDB stream images are modelled as association
lists, `dict[k]` as a fallible lookup (`Except` with a KeyError message),
`dict.get(k, d)` as an optional lookup with a default, and the per-record
`try/except` of the handlers as the total combinator `pyTry`.  The
DynamoDB user-profile table is an association list from user id to a
profile record; `update_item` calls that may fail at the store level are
modelled with explicit failure oracles carried in the environment, so that
the `try/except` inside the two mutation helpers is observable.
-/

namespace HoldThatThought

/-- A DynamoDB attribute value as it appears in a stream image.  The code
only ever reads the string variant `['S']`; an attribute whose dictionary
lacks the `'S'` key is represented by `s := none`. -/
structure AttrVal where
  s : Option String
deriving DecidableEq, Repr

/-- A stream image (`NewImage`): a Python dict from attribute name to
attribute value, modelled as an association list. -/
abbrev Image := List (String × AttrVal)

/-- Python `d.get(key)` on an image: `none` when the key is absent. -/
def imgGet (img : Image) (key : String) : Option AttrVal :=
  (img.find? (fun kv => kv.1 == key)).map (fun kv => kv.2)

/-- Python `new_image[key]['S']`: raises `KeyError` when the attribute is
absent or has no string value. -/
def getS (img : Image) (key : String) : Except String String :=
  match imgGet img key with
  | none => .error ("KeyError: " ++ key)
  | some av =>
    match av.s with
    | none => .error "KeyError: S"
    | some v => .ok v

/-- Python `new_image.get(key, {}).get('S')`: `none` when the attribute is
absent or has no string value. -/
def getSOpt (img : Image) (key : String) : Option String :=
  (imgGet img key).bind (fun av => av.s)

/-- Python `new_image.get(key, {}).get('S', default)`. -/
def getSDefault (img : Image) (key dflt : String) : String :=
  (getSOpt img key).getD dflt

/-- Whether `pat` occurs as a contiguous sublist of `s`. -/
def occursWithin (pat : List Char) : List Char → Bool
  | [] => pat.isEmpty
  | c :: rest => pat.isPrefixOf (c :: rest) || occursWithin pat rest

/-- Python `pattern in s` on strings: substring containment. -/
def strContains (s pattern : String) : Bool :=
  occursWithin pattern.toList s.toList

/-- Python `s.lower()` (the tables at hand are ASCII-named). -/
def lowerCh (s : List Char) : List Char :=
  s.map Char.toLower

/-- Split at the first occurrence of `sep` (non-empty): `some (pre, post)`
with `s = pre ++ sep ++ post`, or `none` when `sep` does not occur. -/
def splitFirstCh (sep : List Char) : List Char → Option (List Char × List Char)
  | [] => none
  | c :: rest =>
    if sep.isPrefixOf (c :: rest) then some ([], (c :: rest).drop sep.length)
    else
      match splitFirstCh sep rest with
      | some (pre, post) => some (c :: pre, post)
      | none => none

/-- Python `record['eventSourceARN'].split(':table/')[1].split('/')[0]`:
the segment between the first `':table/'` and the next `':table/'` (or the
end), truncated at its first `'/'`.  Indexing `[1]` raises `IndexError`
when the ARN has no `':table/'` separator. -/
def extract_table_name (arn : String) : Except String String :=
  match splitFirstCh ":table/".toList arn.toList with
  | none => .error "IndexError: list index out of range"
  | some (_, post) =>
    let second :=
      match splitFirstCh ":table/".toList post with
      | some (pre, _) => pre
      | none => post
    .ok ⟨second.takeWhile (fun c => c != '/')⟩

/-- The branch a handler's `if/elif` chain selects for a table name. -/
inductive SourceKind where
  | comment
  | message
  | reaction
  | skip
deriving DecidableEq, Repr

/-- The Activity Updater's classification chain
(`activity-aggregator/index.py`, `process_insert_event`):
comment requires `'comment' in t.lower()` and `'reaction' not in t.lower()`,
then message, then reaction. -/
def activityClassify (table_name : String) : SourceKind :=
  let t : String := ⟨lowerCh table_name.toList⟩
  if strContains t "comment" && !(strContains t "reaction") then .comment
  else if strContains t "message" then .message
  else if strContains t "reaction" then .reaction
  else .skip

/-- The Notification Dispatcher's classification chain
(`notification-processor/index.py`, `process_insert_event`):
comment requires only `'comment' in t.lower()`, then reaction,
then message. -/
def notifClassify (table_name : String) : SourceKind :=
  let t : String := ⟨lowerCh table_name.toList⟩
  if strContains t "comment" then .comment
  else if strContains t "reaction" then .reaction
  else if strContains t "message" then .message
  else .skip

/-- One DynamoDB stream record as the handlers read it: the operation
kind (`eventName`), the source ARN, and `record['dynamodb']['NewImage']`
(`none` when the record carries no new image, in which case reading it
raises `KeyError`). -/
structure StreamRecord where
  eventName : String
  eventSourceARN : String
  newImage : Option Image
deriving DecidableEq, Repr

/-- Python `record['dynamodb']['NewImage']`. -/
def StreamRecord.getNewImage (r : StreamRecord) : Except String Image :=
  match r.newImage with
  | some img => .ok img
  | none => .error "KeyError: NewImage"

/-- Python `try: body except Exception as e: handler(e)` around a whole
function body: the result is total. -/
def pyTry {α : Type} (body : Except String α) (handler : String → α) : α :=
  match body with
  | .ok a => a
  | .error e => handler e

/-- The fixed HTTP-style acknowledgement a handler returns. -/
structure Response where
  statusCode : Nat
  body : String
deriving DecidableEq, Repr

/-- One user's row in the user-profiles table.  A user absent from the
table behaves like `{commentCount := 0, lastActive := none}`: DynamoDB
`update_item` with `ADD`/`SET` upserts, treating a missing numeric
attribute as 0. -/
structure Profile where
  commentCount : Int
  lastActive : Option String
deriving DecidableEq, Repr

/-- The user-profiles table: an association list from user id to profile. -/
abbrev UserStore := List (String × Profile)

/-- Read a user's profile, defaulting to the empty profile (upsert view). -/
def getProfile (st : UserStore) (uid : String) : Profile :=
  ((st.find? (fun kv => kv.1 == uid)).map (fun kv => kv.2)).getD ⟨0, none⟩

/-- Apply a profile transformation to one user, inserting the user when
absent (DynamoDB `update_item` upsert semantics). -/
def setProfile (st : UserStore) (uid : String) (f : Profile → Profile) : UserStore :=
  match st with
  | [] => [(uid, f ⟨0, none⟩)]
  | (k, p) :: rest =>
    if k == uid then (k, f p) :: rest else (k, p) :: setProfile rest uid f

/-- The Activity Updater's environment: the profile store, the current
time as `datetime.utcnow().isoformat()` (without the trailing `'Z'` the
code appends), store-level failure oracles for the two `update_item`
shapes, and the log lines printed so far. -/
structure ActEnv where
  store : UserStore
  now : String
  addFails : String → Bool
  setFails : String → Bool
  logs : List String

/-- Append a print line. -/
def ActEnv.log (env : ActEnv) (msg : String) : ActEnv :=
  { env with logs := env.logs ++ [msg] }

/-- Embeds `table.update_item(Key=..., UpdateExpression='ADD commentCount :inc')`:
fallible store call, mutating when the oracle lets it through. -/
def update_item_add (env : ActEnv) (uid : String) : Except String ActEnv :=
  if env.addFails uid then .error ("ClientError: update_item ADD " ++ uid)
  else .ok { env with
    store := setProfile env.store uid
      (fun p => { p with commentCount := p.commentCount + 1 }) }

/-- Embeds `table.update_item(Key=..., UpdateExpression='SET lastActive = :now')`
with `:now = datetime.utcnow().isoformat() + 'Z'`. -/
def update_item_set (env : ActEnv) (uid : String) : Except String ActEnv :=
  if env.setFails uid then .error ("ClientError: update_item SET " ++ uid)
  else .ok { env with
    store := setProfile env.store uid
      (fun p => { p with lastActive := some (env.now ++ "Z") }) }

/-- Embeds `increment_comment_count(user_id)`: the whole body sits in a
`try/except` that logs and returns normally on failure. -/
def increment_comment_count (env : ActEnv) (user_id : String) : ActEnv :=
  pyTry
    (match update_item_add env user_id with
     | .error e => .error e
     | .ok env1 => .ok (env1.log ("Incremented commentCount for user " ++ user_id)))
    (fun e => env.log ("Error incrementing comment count for " ++ user_id ++ ": " ++ e))

/-- Embeds `update_last_active(user_id)`: the whole body sits in a `try/except`
that logs and returns normally on failure. -/
def update_last_active (env : ActEnv) (user_id : String) : ActEnv :=
  pyTry
    (match update_item_set env user_id with
     | .error e => .error e
     | .ok env1 => .ok (env1.log ("Updated lastActive for user " ++ user_id)))
    (fun e => env.log ("Error updating lastActive for " ++ user_id ++ ": " ++ e))

/-- Embeds `process_insert_event(record)` of the Activity Updater: extract the
table name, read the new image, then dispatch on the `if/elif` chain.
Raises (returns `.error`) on a missing ARN separator, missing `NewImage`,
or a missing `userId` in the comment and reaction branches.  The message
branch's `if sender_id:` is a Python truthiness test: false both when the
attribute is absent and when the sender identifier is the empty string. -/
def act_process_insert_event (env : ActEnv) (record : StreamRecord) :
    Except String ActEnv :=
  match extract_table_name record.eventSourceARN with
  | .error e => .error e
  | .ok table_name =>
  match record.getNewImage with
  | .error e => .error e
  | .ok new_image =>
  match activityClassify table_name with
  | .comment =>
    match getS new_image "userId" with
    | .error e => .error e
    | .ok user_id =>
      .ok (update_last_active (increment_comment_count env user_id) user_id)
  | .message =>
    match getSOpt new_image "senderId" with
    | some sender_id =>
      if !(sender_id == "") then .ok (update_last_active env sender_id)
      else .ok env
    | none => .ok env
  | .reaction =>
    match getS new_image "userId" with
    | .error e => .error e
    | .ok user_id => .ok (update_last_active env user_id)
  | .skip => .ok env

/-- Embeds `lambda_handler` of the Activity Updater: log the batch size, loop
with a per-record `try/except`, process only `INSERT` records, and return
the fixed acknowledgement. -/
def act_lambda_handler (env : ActEnv) (records : List StreamRecord) :
    ActEnv × Response :=
  let env0 := env.log ("Processing " ++ toString records.length ++ " records")
  let envN := records.foldl
    (fun acc r =>
      pyTry
        (if r.eventName == "INSERT" then act_process_insert_event acc r
         else .ok acc)
        (fun e => acc.log ("Error processing record: " ++ e)))
    env0
  (envN, { statusCode := 200, body := "Activity stats updated" })

/-- An observable side effect of the Notification Dispatcher: a `print`
log line, or an SES `send_email` call. -/
inductive NotifEffect where
  | log (msg : String)
  | email (source toAddr subject bodyHtml : String)
deriving DecidableEq, Repr

/-- Whether an effect is an outbound email. -/
def NotifEffect.isEmail : NotifEffect → Bool
  | .email _ _ _ _ => true
  | .log _ => false

/-- Embeds `send_email(to_email, subject, body_html)` in
`notification-processor/index.py`: issues one SES send.  Defined so the
model can represent emails; the theorems show no processing path emits
such an effect. -/
def send_email (ses_from to_email subject body_html : String) : List NotifEffect :=
  [.email ses_from to_email subject body_html]

/-- Python `text[:50]` on a string. -/
def take50 (text : String) : String :=
  ⟨text.toList.take 50⟩

/-- Embeds `process_comment_notification(new_image)`: reads the comment fields
(raising `KeyError` on the required ones) and only prints a log line. -/
def process_comment_notification (new_image : Image) :
    Except String (List NotifEffect) :=
  match getS new_image "itemId" with
  | .error e => .error e
  | .ok _item_id =>
  match getS new_image "commentId" with
  | .error e => .error e
  | .ok _comment_id =>
  match getS new_image "userId" with
  | .error e => .error e
  | .ok _user_id =>
  let user_name := getSDefault new_image "userName" "Someone"
  match getS new_image "commentText" with
  | .error e => .error e
  | .ok comment_text =>
  let item_title := getSDefault new_image "itemTitle" "a letter"
  .ok [.log ("New comment by " ++ user_name ++ " on " ++ item_title ++ ": "
      ++ take50 comment_text ++ "...")]

/-- Embeds `process_reaction_notification(new_image)`: reads the reaction fields
and only prints a log line. -/
def process_reaction_notification (new_image : Image) :
    Except String (List NotifEffect) :=
  match getS new_image "commentId" with
  | .error e => .error e
  | .ok comment_id =>
  match getS new_image "userId" with
  | .error e => .error e
  | .ok user_id =>
  .ok [.log ("New reaction from " ++ user_id ++ " on comment " ++ comment_id)]

/-- Embeds `process_message_notification(new_image)`: reads the message fields
and only prints a log line. -/
def process_message_notification (new_image : Image) :
    Except String (List NotifEffect) :=
  match getS new_image "conversationId" with
  | .error e => .error e
  | .ok _conversation_id =>
  match getS new_image "senderId" with
  | .error e => .error e
  | .ok _sender_id =>
  let sender_name := getSDefault new_image "senderName" "Someone"
  match getS new_image "messageText" with
  | .error e => .error e
  | .ok message_text =>
  .ok [.log ("New message from " ++ sender_name ++ ": "
      ++ take50 message_text ++ "...")]

/-- Embeds `process_insert_event(record)` of the Notification Dispatcher:
extract the table name, read the new image, then dispatch on the
`if/elif` chain (comment first, with no reaction exclusion). -/
def notif_process_insert_event (record : StreamRecord) :
    Except String (List NotifEffect) :=
  match extract_table_name record.eventSourceARN with
  | .error e => .error e
  | .ok table_name =>
  match record.getNewImage with
  | .error e => .error e
  | .ok new_image =>
  match notifClassify table_name with
  | .comment => process_comment_notification new_image
  | .reaction => process_reaction_notification new_image
  | .message => process_message_notification new_image
  | .skip => .ok []

/-- Embeds `lambda_handler` of the Notification Dispatcher: log the batch size,
loop with a per-record `try/except`, process only `INSERT` records, and
return the fixed acknowledgement. -/
def notif_lambda_handler (records : List StreamRecord) :
    List NotifEffect × Response :=
  let effs := records.foldl
    (fun acc r =>
      acc ++ pyTry
        (if r.eventName == "INSERT" then notif_process_insert_event r
         else .ok [])
        (fun e => [.log ("Error processing record: " ++ e)]))
    [NotifEffect.log ("Processing " ++ toString records.length ++ " records")]
  (effs, { statusCode := 200, body := "Notifications processed" })

/-- The Amplify service state visible to the Deployment Poller: the
status string of each job, keyed by `(appId, branchName, jobId)`. -/
abbrev AmplifyState := List ((String × String × String) × String)

/-- Embeds `amplify.get_job(...)["job"]["summary"]["status"]`: a read-only query
that returns the job's status and leaves the service state unchanged;
raises when the job does not exist. -/
def get_job_status (st : AmplifyState) (app_id branch_name job_id : String) :
    Except String String × AmplifyState :=
  match st.find? (fun kv => kv.1 == (app_id, branch_name, job_id)) with
  | some kv => (.ok kv.2, st)
  | none => (.error "NotFoundException: get_job", st)

/-- Python `data[key]` on the `CrHelperData` dict. -/
def dictGet (data : List (String × String)) (key : String) : Except String String :=
  match data.find? (fun kv => kv.1 == key) with
  | some kv => .ok kv.2
  | none => .error ("KeyError: " ++ key)

/-- Embeds `poll(event, context)` of the Deployment Poller
(`amplify-deployer/index.py`): read the carried identifiers, query the
job status, and return `True` on `"SUCCEED"`, `None` on the fixed
non-terminal statuses, and raise `RuntimeError` on anything else.  The
returned `AmplifyState` is the service state after the invocation. -/
def poll (st : AmplifyState) (data : List (String × String)) :
    Except String (Option Bool) × AmplifyState :=
  match dictGet data "AppId" with
  | .error e => (.error e, st)
  | .ok app_id =>
  match dictGet data "BranchName" with
  | .error e => (.error e, st)
  | .ok branch_name =>
  match dictGet data "JobId" with
  | .error e => (.error e, st)
  | .ok job_id =>
  match get_job_status st app_id branch_name job_id with
  | (.error e, st1) => (.error e, st1)
  | (.ok status, st1) =>
    if status == "SUCCEED" then (.ok (some true), st1)
    else if status == "PENDING" || status == "PROVISIONING" || status == "RUNNING" then
      (.ok none, st1)
    else (.error ("RuntimeError: Deployment failed: " ++ status), st1)

/-! ### Concrete fixtures (mirroring the repository's test events) -/

/-- The stream ARN of a table, as in the repository's test fixtures. -/
def arnFor (table : String) : String :=
  "arn:aws:dynamodb:us-east-1:123456789012:table/" ++ table
    ++ "/stream/2024-01-01T00:00:00.000"

def imgComment : Image :=
  [("itemId", ⟨some "/2015/christmas"⟩),
   ("commentId", ⟨some "2025-01-15T10:00:00.000Z#abc"⟩),
   ("userId", ⟨some "user-123"⟩),
   ("commentText", ⟨some "Great letter!"⟩)]

def imgMessage : Image :=
  [("conversationId", ⟨some "user-1#user-2"⟩),
   ("messageId", ⟨some "2025-01-15T10:00:00.000Z#xyz"⟩),
   ("senderId", ⟨some "user-456"⟩),
   ("messageText", ⟨some "Hello!"⟩)]

def imgMessageNoSender : Image :=
  [("conversationId", ⟨some "user-1#user-2"⟩),
   ("messageText", ⟨some "Hello!"⟩)]

/-- A message image whose sender identifier is present but empty: falsy
under Python's `if sender_id:`. -/
def imgMessageEmptySender : Image :=
  [("conversationId", ⟨some "user-1#user-2"⟩),
   ("senderId", ⟨some ""⟩),
   ("messageText", ⟨some "Hello!"⟩)]

def imgReaction : Image :=
  [("commentId", ⟨some "2025-01-15T10:00:00.000Z#abc"⟩),
   ("userId", ⟨some "user-789"⟩),
   ("reactionType", ⟨some "like"⟩)]

/-- An image with no `userId`: reading it raises `KeyError`. -/
def imgNoUser : Image := [("commentText", ⟨some "Invalid"⟩)]

def recComment : StreamRecord :=
  ⟨"INSERT", arnFor "hold-that-thought-comments", some imgComment⟩

def recMessage : StreamRecord :=
  ⟨"INSERT", arnFor "hold-that-thought-messages", some imgMessage⟩

def recMessageNoSender : StreamRecord :=
  ⟨"INSERT", arnFor "hold-that-thought-messages", some imgMessageNoSender⟩

def recMessageEmptySender : StreamRecord :=
  ⟨"INSERT", arnFor "hold-that-thought-messages", some imgMessageEmptySender⟩

def recReaction : StreamRecord :=
  ⟨"INSERT", arnFor "hold-that-thought-comment-reactions", some imgReaction⟩

def recNoUser : StreamRecord :=
  ⟨"INSERT", arnFor "hold-that-thought-comments", some imgNoUser⟩

def recModify : StreamRecord :=
  ⟨"MODIFY", arnFor "hold-that-thought-comments", some imgComment⟩

def recUnknown : StreamRecord :=
  ⟨"INSERT", arnFor "hold-that-thought-letters", some imgComment⟩

/-- A healthy environment: no store-level failures. -/
def envOk : ActEnv :=
  ⟨[("user-123", ⟨5, none⟩)], "2025-01-15T10:00:00", fun _ => false,
   fun _ => false, []⟩

/-- An environment whose `ADD commentCount` call always fails at the
store, while `SET lastActive` succeeds. -/
def envAddFail : ActEnv :=
  ⟨[("user-123", ⟨5, none⟩)], "2025-01-15T10:00:00", fun _ => true,
   fun _ => false, []⟩

/-! ### Store helper lemmas -/

theorem getProfile_setProfile_same (st : UserStore) (uid : String)
    (f : Profile → Profile) :
    getProfile (setProfile st uid f) uid = f (getProfile st uid) := by
  induction st with
  | nil => simp [getProfile, setProfile]
  | cons kv rest ih =>
    obtain ⟨k, p⟩ := kv
    by_cases h : k = uid
    · subst h
      simp [getProfile, setProfile, List.find?]
    · have hbeq : (k == uid) = false := by simp [h]
      simp only [setProfile, hbeq, if_neg, Bool.false_eq_true, ite_false]
      simpa [getProfile, List.find?, hbeq] using ih

theorem getProfile_setProfile_other (st : UserStore) (uid u : String)
    (f : Profile → Profile) (h : u ≠ uid) :
    getProfile (setProfile st uid f) u = getProfile st u := by
  have huid : (uid == u) = false := by
    simp only [beq_eq_false_iff_ne, ne_eq]
    exact fun hh => h hh.symm
  induction st with
  | nil => simp [getProfile, setProfile, List.find?, huid]
  | cons kv rest ih =>
    obtain ⟨k, p⟩ := kv
    by_cases hk : k = uid
    · subst hk
      simp [getProfile, setProfile, List.find?, huid]
    · have hbeq : (k == uid) = false := by simp [hk]
      by_cases hu : k = u
      · subst hu
        simp [getProfile, setProfile, List.find?, hbeq]
      · have hbu : (k == u) = false := by simp [hu]
        simp only [setProfile, hbeq, Bool.false_eq_true, ite_false]
        simpa [getProfile, List.find?, hbu] using ih

theorem increment_comment_count_store (env : ActEnv) (uid : String) :
    (increment_comment_count env uid).store =
      if env.addFails uid then env.store
      else setProfile env.store uid
        (fun p => { p with commentCount := p.commentCount + 1 }) := by
  unfold increment_comment_count update_item_add pyTry
  by_cases h : env.addFails uid <;> simp [h, ActEnv.log]

theorem increment_comment_count_fields (env : ActEnv) (uid : String) :
    (increment_comment_count env uid).now = env.now ∧
    (increment_comment_count env uid).addFails = env.addFails ∧
    (increment_comment_count env uid).setFails = env.setFails := by
  unfold increment_comment_count update_item_add pyTry
  by_cases h : env.addFails uid <;> simp [h, ActEnv.log]

theorem update_last_active_store (env : ActEnv) (uid : String) :
    (update_last_active env uid).store =
      if env.setFails uid then env.store
      else setProfile env.store uid
        (fun p => { p with lastActive := some (env.now ++ "Z") }) := by
  unfold update_last_active update_item_set pyTry
  by_cases h : env.setFails uid <;> simp [h, ActEnv.log]

theorem get_job_status_state (st : AmplifyState) (a b j : String) :
    (get_job_status st a b j).2 = st := by
  unfold get_job_status
  split <;> rfl

/-- Fixture: the carried-state map a poll invocation receives. -/
def dataPoll : List (String × String) :=
  [("AppId", "app-1"), ("BranchName", "main"), ("JobId", "job-1")]

/-- Fixture: the Amplify service with the polled job still running. -/
def amplifyRunning : AmplifyState := [(("app-1", "main", "job-1"), "RUNNING")]

/-- C2: a single poll invocation returns the terminal-success signal on
status `"SUCCEED"`, the continue signal (no error, no result) on each of
`"PENDING"`, `"PROVISIONING"`, `"RUNNING"`, and raises a failure carrying
the status string on any other status. -/
theorem poll_status_classification (st : AmplifyState)
    (data : List (String × String)) (app branch job status : String)
    (hA : dictGet data "AppId" = .ok app)
    (hB : dictGet data "BranchName" = .ok branch)
    (hJ : dictGet data "JobId" = .ok job)
    (hS : (get_job_status st app branch job).1 = .ok status) :
    (poll st data).1 =
      (if status = "SUCCEED" then .ok (some true)
       else if status = "PENDING" ∨ status = "PROVISIONING" ∨ status = "RUNNING" then
         .ok none
       else .error ("RuntimeError: Deployment failed: " ++ status)) := by
  unfold poll
  simp only [hA, hB, hJ]
  cases hG : get_job_status st app branch job with
  | mk res st1 =>
    rw [hG] at hS
    simp only at hS
    subst hS
    simp only [hG]
    by_cases h1 : status = "SUCCEED"
    · simp [h1]
    · by_cases h2 : status = "PENDING"
      · simp [h1, h2]
      · by_cases h3 : status = "PROVISIONING"
        · simp [h1, h2, h3]
        · by_cases h4 : status = "RUNNING"
          · simp [h1, h2, h3, h4]
          · simp [h1, h2, h3, h4]

theorem poll_status_classification_witness :
    (poll amplifyRunning dataPoll).1 = .ok none := by
  have h := poll_status_classification amplifyRunning dataPoll
    "app-1" "main" "job-1" "RUNNING" rfl rfl rfl rfl
  rw [if_neg (by decide), if_pos (by decide)] at h
  exact h

/-- C8: a poll invocation is read-only on the Amplify service state: it
issues only the `get_job` status query, so the service state after the
invocation is the state before it, whatever the outcome. -/
theorem poll_is_readonly (st : AmplifyState) (data : List (String × String)) :
    (poll st data).2 = st := by
  unfold poll
  cases hA : dictGet data "AppId" with
  | error e => simp [hA]
  | ok app_id =>
  cases hB : dictGet data "BranchName" with
  | error e => simp [hA, hB]
  | ok branch_name =>
  cases hJ : dictGet data "JobId" with
  | error e => simp [hA, hB, hJ]
  | ok job_id =>
  have hS := get_job_status_state st app_id branch_name job_id
  simp only [hA, hB, hJ]
  cases hG : get_job_status st app_id branch_name job_id with
  | mk res st1 =>
    rw [hG] at hS
    simp only at hS
    cases res with
    | error e => exact hS
    | ok status =>
      by_cases h1 : (status == "SUCCEED") = true
      · simpa [h1] using hS
      · by_cases h2 : (status == "PENDING" || status == "PROVISIONING"
            || status == "RUNNING") = true
        · simpa [h1, h2] using hS
        · simpa [h1, h2] using hS

/-- C3: the Activity Updater's handler always returns the fixed success
acknowledgement, and in a batch whose first record raises (its image has
no `userId`) the second record's mutation is still applied: `user-123`
goes from 5 comments to 6 and gains a `lastActive` stamp. -/
theorem act_handler_acks_despite_item_failures :
    (∀ (env : ActEnv) (records : List StreamRecord),
        (act_lambda_handler env records).2 =
          { statusCode := 200, body := "Activity stats updated" }) ∧
    getProfile (act_lambda_handler envOk [recNoUser, recComment]).1.store
        "user-123" =
      { commentCount := 6, lastActive := some "2025-01-15T10:00:00Z" } := by
  exact ⟨fun env records => rfl, rfl⟩

/-- C4: an insert event the Activity Updater classifies as a comment
increments the acting user's comment counter by exactly 1 and sets that
user's last-active timestamp to a string ending in `'Z'` (assuming the
two store calls themselves succeed). -/
theorem comment_insert_increments_and_stamps (env : ActEnv)
    (r : StreamRecord) (t : String) (img : Image) (uid : String)
    (ht : extract_table_name r.eventSourceARN = .ok t)
    (hc : activityClassify t = SourceKind.comment)
    (himg : r.newImage = some img)
    (hu : getS img "userId" = .ok uid)
    (hadd : env.addFails uid = false)
    (hset : env.setFails uid = false) :
    ∃ env', act_process_insert_event env r = .ok env' ∧
      (getProfile env'.store uid).commentCount =
        (getProfile env.store uid).commentCount + 1 ∧
      ∃ s, (getProfile env'.store uid).lastActive = some (s ++ "Z") := by
  have hstore1 : (increment_comment_count env uid).store =
      setProfile env.store uid
        (fun p => { p with commentCount := p.commentCount + 1 }) := by
    rw [increment_comment_count_store env uid, hadd]
    simp
  have hset1 : (increment_comment_count env uid).setFails uid = false :=
    (congrFun (increment_comment_count_fields env uid).2.2 uid).trans hset
  have hnow1 : (increment_comment_count env uid).now = env.now :=
    (increment_comment_count_fields env uid).1
  have hstore2 : (update_last_active (increment_comment_count env uid) uid).store =
      setProfile (increment_comment_count env uid).store uid
        (fun p => { p with
          lastActive := some ((increment_comment_count env uid).now ++ "Z") }) := by
    rw [update_last_active_store, hset1]
    simp
  refine ⟨update_last_active (increment_comment_count env uid) uid, ?_, ?_, env.now, ?_⟩
  · unfold act_process_insert_event StreamRecord.getNewImage
    rw [ht, himg]
    simp only [ht, himg, hc, hu]
  · rw [hstore2, getProfile_setProfile_same, hstore1, getProfile_setProfile_same]
  · rw [hstore2, getProfile_setProfile_same, hnow1]

theorem comment_insert_increments_and_stamps_witness :
    ∃ env', act_process_insert_event envOk recComment = .ok env' ∧
      (getProfile env'.store "user-123").commentCount =
        (getProfile envOk.store "user-123").commentCount + 1 ∧
      ∃ s, (getProfile env'.store "user-123").lastActive = some (s ++ "Z") :=
  comment_insert_increments_and_stamps envOk recComment
    "hold-that-thought-comments" imgComment "user-123" rfl rfl rfl rfl rfl rfl

/-- C5: an insert event the Activity Updater classifies as a message only
stamps the sender's last-active timestamp when a truthy (non-empty)
sender identifier is present — every comment counter is unchanged and
every other user's profile is untouched — and performs no mutation at
all when the sender identifier is absent, or present but empty (Python's
`if sender_id:` truthiness test). -/
theorem message_insert_only_stamps_sender (env : ActEnv) (r : StreamRecord)
    (t : String) (img : Image)
    (ht : extract_table_name r.eventSourceARN = .ok t)
    (hm : activityClassify t = SourceKind.message)
    (himg : r.newImage = some img) :
    (∀ sid, getSOpt img "senderId" = some sid → sid ≠ "" →
      env.setFails sid = false →
      ∃ env', act_process_insert_event env r = .ok env' ∧
        (getProfile env'.store sid).lastActive = some (env.now ++ "Z") ∧
        (∀ u, (getProfile env'.store u).commentCount =
          (getProfile env.store u).commentCount) ∧
        (∀ u, u ≠ sid → getProfile env'.store u = getProfile env.store u)) ∧
    (getSOpt img "senderId" = none →
      act_process_insert_event env r = .ok env) ∧
    (getSOpt img "senderId" = some "" →
      act_process_insert_event env r = .ok env) := by
  refine ⟨?_, ?_, ?_⟩
  · intro sid hsid hne hsf
    have hsidne : (sid == "") = false := by simp [hne]
    have hstore : (update_last_active env sid).store =
        setProfile env.store sid
          (fun p => { p with lastActive := some (env.now ++ "Z") }) := by
      rw [update_last_active_store, hsf]
      simp
    refine ⟨update_last_active env sid, ?_, ?_, ?_, ?_⟩
    · unfold act_process_insert_event StreamRecord.getNewImage
      rw [ht, himg]
      simp only [ht, himg, hm, hsid, hsidne, Bool.not_false, ite_true]
    · rw [hstore, getProfile_setProfile_same]
    · intro u
      by_cases hu : u = sid
      · subst hu
        rw [hstore, getProfile_setProfile_same]
      · rw [hstore, getProfile_setProfile_other _ _ _ _ hu]
    · intro u hu
      rw [hstore, getProfile_setProfile_other _ _ _ _ hu]
  · intro hnone
    unfold act_process_insert_event StreamRecord.getNewImage
    rw [ht, himg]
    simp only [ht, himg, hm, hnone]
  · intro hempty
    unfold act_process_insert_event StreamRecord.getNewImage
    rw [ht, himg]
    simp only [ht, himg, hm, hempty]
    rfl

theorem message_insert_only_stamps_sender_witness :
    (∃ env', act_process_insert_event envOk recMessage = .ok env' ∧
      (getProfile env'.store "user-456").lastActive = some (envOk.now ++ "Z") ∧
      (∀ u, (getProfile env'.store u).commentCount =
        (getProfile envOk.store u).commentCount) ∧
      (∀ u, u ≠ "user-456" → getProfile env'.store u = getProfile envOk.store u)) ∧
    act_process_insert_event envOk recMessageNoSender = .ok envOk ∧
    act_process_insert_event envOk recMessageEmptySender = .ok envOk :=
  ⟨(message_insert_only_stamps_sender envOk recMessage
      "hold-that-thought-messages" imgMessage rfl rfl rfl).1 "user-456"
      rfl (by decide) rfl,
   (message_insert_only_stamps_sender envOk recMessageNoSender
      "hold-that-thought-messages" imgMessageNoSender rfl rfl rfl).2.1 rfl,
   (message_insert_only_stamps_sender envOk recMessageEmptySender
      "hold-that-thought-messages" imgMessageEmptySender rfl rfl rfl).2.2 rfl⟩

theorem act_fold_skips_non_insert (records : List StreamRecord) :
    ∀ env : ActEnv,
      (∀ r ∈ records, (r.eventName == "INSERT") = false) →
      records.foldl
        (fun acc r =>
          pyTry
            (if r.eventName == "INSERT" then act_process_insert_event acc r
             else .ok acc)
            (fun e => acc.log ("Error processing record: " ++ e)))
        env = env := by
  induction records with
  | nil => intro env _; rfl
  | cons r rest ih =>
    intro env h
    have hr : (r.eventName == "INSERT") = false := h r (by simp)
    simp only [List.foldl_cons, hr]
    exact ih env (fun r' hr' => h r' (by simp [hr']))

/-- C6: a batch containing only non-insert operations causes no store
mutation, and the handler still returns its fixed success
acknowledgement. -/
theorem non_insert_batch_is_noop (env : ActEnv) (records : List StreamRecord)
    (h : ∀ r ∈ records, (r.eventName == "INSERT") = false) :
    (act_lambda_handler env records).1.store = env.store ∧
    (act_lambda_handler env records).2 =
      { statusCode := 200, body := "Activity stats updated" } := by
  constructor
  · unfold act_lambda_handler
    simp only
    rw [act_fold_skips_non_insert records _ h]
    rfl
  · rfl

theorem non_insert_batch_is_noop_witness :
    (act_lambda_handler envOk [recModify]).1.store = envOk.store ∧
    (act_lambda_handler envOk [recModify]).2 =
      { statusCode := 200, body := "Activity stats updated" } :=
  non_insert_batch_is_noop envOk [recModify]
    (by intro r hr; simp at hr; subst hr; rfl)

/-- C9: an insert event whose extracted table name matches none of the
recognized source kinds is silently ignored by the Activity Updater: the
result is success with the environment unchanged — no store mutation, no
error, no effect on the batch. -/
theorem unrecognized_insert_is_ignored (env : ActEnv) (r : StreamRecord)
    (t : String) (img : Image)
    (ht : extract_table_name r.eventSourceARN = .ok t)
    (hs : activityClassify t = SourceKind.skip)
    (himg : r.newImage = some img) :
    act_process_insert_event env r = .ok env := by
  unfold act_process_insert_event StreamRecord.getNewImage
  rw [ht, himg]
  simp only [ht, himg, hs]

theorem unrecognized_insert_is_ignored_witness :
    act_process_insert_event envOk recUnknown = .ok envOk :=
  unrecognized_insert_is_ignored envOk recUnknown
    "hold-that-thought-letters" imgComment rfl rfl rfl

/-- C10: the two store-mutation helpers catch store-level failures
internally, so a comment record succeeds (`.ok`) whatever the store
oracles say; when the counter increment fails the counter is unchanged,
yet the last-active update is still attempted and — when its own store
call succeeds — applied. -/
theorem store_failures_are_swallowed (env : ActEnv) (r : StreamRecord)
    (t : String) (img : Image) (uid : String)
    (ht : extract_table_name r.eventSourceARN = .ok t)
    (hc : activityClassify t = SourceKind.comment)
    (himg : r.newImage = some img)
    (hu : getS img "userId" = .ok uid) :
    ∃ env', act_process_insert_event env r = .ok env' ∧
      (env.addFails uid = true →
        (getProfile env'.store uid).commentCount =
          (getProfile env.store uid).commentCount) ∧
      (env.setFails uid = false →
        (getProfile env'.store uid).lastActive = some (env.now ++ "Z")) := by
  have hsetF : (increment_comment_count env uid).setFails = env.setFails :=
    (increment_comment_count_fields env uid).2.2
  have hnow1 : (increment_comment_count env uid).now = env.now :=
    (increment_comment_count_fields env uid).1
  refine ⟨update_last_active (increment_comment_count env uid) uid, ?_, ?_, ?_⟩
  · unfold act_process_insert_event StreamRecord.getNewImage
    rw [ht, himg]
    simp only [ht, himg, hc, hu]
  · intro hadd
    have hstore1 : (increment_comment_count env uid).store = env.store := by
      rw [increment_comment_count_store env uid, hadd]
      simp
    rw [update_last_active_store, hsetF, hstore1]
    by_cases hsf : env.setFails uid
    · simp [hsf]
    · simp only [hsf, Bool.false_eq_true, ite_false]
      rw [getProfile_setProfile_same]
  · intro hset
    rw [update_last_active_store, hsetF, hset]
    simp only [Bool.false_eq_true, ite_false]
    rw [getProfile_setProfile_same, hnow1]

theorem store_failures_are_swallowed_witness :
    ∃ env', act_process_insert_event envAddFail recComment = .ok env' ∧
      (getProfile env'.store "user-123").commentCount =
        (getProfile envAddFail.store "user-123").commentCount ∧
      (getProfile env'.store "user-123").lastActive =
        some (envAddFail.now ++ "Z") := by
  obtain ⟨env', h1, h2, h3⟩ := store_failures_are_swallowed envAddFail
    recComment "hold-that-thought-comments" imgComment "user-123"
    rfl rfl rfl rfl
  exact ⟨env', h1, h2 rfl, h3 rfl⟩

theorem notif_insert_effects_are_logs (r : StreamRecord)
    (effs : List NotifEffect)
    (h : notif_process_insert_event r = .ok effs) :
    effs.all (fun e => !(NotifEffect.isEmail e)) = true := by
  unfold notif_process_insert_event process_comment_notification
    process_reaction_notification process_message_notification at h
  repeat' split at h
  all_goals cases h
  all_goals rfl

theorem notif_fold_effects_are_logs (records : List StreamRecord) :
    ∀ acc : List NotifEffect,
      acc.all (fun e => !(NotifEffect.isEmail e)) = true →
      (records.foldl
        (fun acc r =>
          acc ++ pyTry
            (if r.eventName == "INSERT" then notif_process_insert_event r
             else .ok [])
            (fun e => [.log ("Error processing record: " ++ e)]))
        acc).all (fun e => !(NotifEffect.isEmail e)) = true := by
  induction records with
  | nil => intro acc hacc; exact hacc
  | cons r rest ih =>
    intro acc hacc
    simp only [List.foldl_cons]
    refine ih _ ?_
    rw [List.all_append, hacc, Bool.true_and]
    by_cases hins : (r.eventName == "INSERT") = true
    · simp only [hins, ite_true]
      cases hr : notif_process_insert_event r with
      | error e => simp [pyTry, hr, NotifEffect.isEmail]
      | ok effs =>
        have := notif_insert_effects_are_logs r effs hr
        simpa [pyTry, hr] using this
    · simp only [hins, Bool.false_eq_true, ite_false]
      rfl

/-- C7: the Notification Dispatcher transmits no email on any batch:
every effect its handler produces is a log line, never an SES send, and
the handler returns its fixed acknowledgement. -/
theorem notif_handler_sends_no_email (records : List StreamRecord) :
    (notif_lambda_handler records).1.all
      (fun e => !(NotifEffect.isEmail e)) = true ∧
    (notif_lambda_handler records).2 =
      { statusCode := 200, body := "Notifications processed" } := by
  constructor
  · unfold notif_lambda_handler
    simp only
    exact notif_fold_effects_are_logs records _ rfl
  · rfl

/-- C1: the repository's reaction table is named
`hold-that-thought-comment-reactions` (both handlers' test fixtures use
this ARN).  The Activity Updater classifies it into the reaction branch,
but the Notification Dispatcher classifies it into the comment branch —
its `'comment' in table_name` test lacks the reaction exclusion — and
processing a reaction image there raises `KeyError: itemId`. -/
theorem classifiers_disagree_on_reaction_table :
    extract_table_name (arnFor "hold-that-thought-comment-reactions") =
      .ok "hold-that-thought-comment-reactions" ∧
    activityClassify "hold-that-thought-comment-reactions" =
      SourceKind.reaction ∧
    notifClassify "hold-that-thought-comment-reactions" =
      SourceKind.comment ∧
    notif_process_insert_event recReaction = .error "KeyError: itemId" :=
  ⟨rfl, by decide, by decide, rfl⟩

end HoldThatThought
